import Mathlib

/-!
Verification of the `submit_tech_score.py` command-line tool: a shallow
embedding of its data construction, validation, URL computation, and
request/response handling, together with theorems settling the spec claims.

Modelling conventions:
- JSON values are a mutual inductive type; JSON numbers are rationals (the
  tool performs no float arithmetic, it only stores and serializes scores).
- Each `print` statement of the source is modelled as a structured
  `OutputEvent`; the process outcome is a `ProcResult` recording the ordered
  output events, the exit code, the list of HTTP POSTs attempted, and whether
  the run ended in an uncaught exception.
- The filesystem is a function from paths to `FileResult`, and the single
  network interaction is a `NetBehavior` describing what `requests.post`
  does on this run.
-/

namespace SubmitTechScore

mutual

/-- A JSON value, as produced by `json.load` and consumed by `json.dumps`.
Numbers are modelled as rationals. -/
inductive JsonValue where
  | null : JsonValue
  | bool : Bool → JsonValue
  | num : Rat → JsonValue
  | str : String → JsonValue
  | arr : JsonArr → JsonValue
  | obj : JsonObj → JsonValue

/-- A JSON array: a list of JSON values. -/
inductive JsonArr where
  | nil : JsonArr
  | cons : JsonValue → JsonArr → JsonArr

/-- A JSON object: an ordered association list of string keys to values. -/
inductive JsonObj where
  | nil : JsonObj
  | cons : String → JsonValue → JsonObj → JsonObj

end

deriving instance DecidableEq for JsonValue
deriving instance Repr for JsonValue

/-- Build a JSON object from a Lean association list. -/
def JsonObj.ofList : List (String × JsonValue) → JsonObj
  | [] => JsonObj.nil
  | (k, v) :: rest => JsonObj.cons k v (JsonObj.ofList rest)

/-- The association list underlying a JSON object. -/
def JsonObj.toPairs : JsonObj → List (String × JsonValue)
  | JsonObj.nil => []
  | JsonObj.cons k v rest => (k, v) :: rest.toPairs

/-- The ordered list of keys of a JSON object. -/
def JsonObj.keys (o : JsonObj) : List String := o.toPairs.map Prod.fst

/-- Concatenation of two JSON objects (Python dict construction order). -/
def JsonObj.append : JsonObj → JsonObj → JsonObj
  | JsonObj.nil, o => o
  | JsonObj.cons k v rest, o => JsonObj.cons k v (rest.append o)

/-- Python `field in d` for a dict `d`: membership among the keys. -/
def JsonObj.hasKey : JsonObj → String → Bool
  | JsonObj.nil, _ => false
  | JsonObj.cons k _ rest, f => if k = f then true else rest.hasKey f

/-- First value bound to a key, if any. -/
def JsonObj.lookup : JsonObj → String → Option JsonValue
  | JsonObj.nil, _ => none
  | JsonObj.cons k v rest, f => if k = f then some v else rest.lookup f

/-- Build a JSON array from a Lean list. -/
def JsonArr.ofList : List JsonValue → JsonArr
  | [] => JsonArr.nil
  | v :: rest => JsonArr.cons v (JsonArr.ofList rest)

/-- Python `x in l` for a list `l`: membership by equality. -/
def JsonArr.containsVal : JsonArr → JsonValue → Bool
  | JsonArr.nil, _ => false
  | JsonArr.cons x rest, v => if x = v then true else rest.containsVal v

/-- Python `needle in hay` for strings: substring containment. -/
def pyStrIn (needle hay : String) : Bool :=
  (List.range (hay.data.length + 1)).any
    (fun i => needle.data.isPrefixOf (hay.data.drop i))

/-- Python `field in data` for an arbitrary value `data`. On a dict it tests
key membership, on a list element membership, on a string substring
containment; on a number, boolean or `None` it raises `TypeError`,
modelled as `none`. -/
def pyIn (field : String) : JsonValue → Option Bool
  | JsonValue.obj fs => some (fs.hasKey field)
  | JsonValue.arr xs => some (xs.containsVal (JsonValue.str field))
  | JsonValue.str s => some (pyStrIn field s)
  | JsonValue.null => none
  | JsonValue.bool _ => none
  | JsonValue.num _ => none

/-- The parsed command-line arguments (`argparse.Namespace`): `--url` is
required, every other flag is optional (`None` when absent). Score flags are
parsed with `type=float`; the parsed numbers are modelled as rationals. -/
structure Args where
  url : String
  tech_doc_name : Option String
  tech_doc_link : Option String
  submitter : Option String
  business_line : Option String
  product_score : Option Rat
  backend_score : Option Rat
  frontend_score : Option Rat
  test_score : Option Rat
  global_score : Option Rat
  global_level : Option String
  from_file : Option String
deriving DecidableEq, Repr

/-- One modelled `print` of the script, in source order of the format
strings they come from. -/
inductive OutputEvent where
  | sendingRequest (api_url : String)
  | requestData (data : JsonValue)
  | responseStatus (status : Nat)
  | responseContent (body : JsonValue)
  | requestSuccess
  | requestFailed (status : Nat)
  | cannotConnect (api_url : String)
  | checkHintHeader
  | hintServerAddress
  | hintServerRunning
  | hintNetwork
  | timeoutMsg
  | requestExceptionMsg (msg : String)
  | invalidJsonResponse
  | rawResponse (text : String)
  | missingFieldsHeader
  | missingField (field : String)
  | provideFieldsHint
  | fileNotFound (path : String)
  | jsonInvalid (msg : String)
deriving DecidableEq, Repr

/-- What the filesystem holds at a path: no file, an unparseable file
(with the decode-error message), or a file parsing to a JSON value. -/
inductive FileResult where
  | notFound : FileResult
  | parseError : String → FileResult
  | ok : JsonValue → FileResult
deriving DecidableEq, Repr

/-- What the single `requests.post` call does on this run: a response with a
status code, raw text and (when the body is valid JSON) its parsed value, or
one of the three modelled transport exceptions. -/
inductive NetBehavior where
  | response (status : Nat) (raw : String) (parsed : Option JsonValue)
  | connectionError
  | timeoutError
  | requestError (msg : String)
deriving DecidableEq, Repr

/-- The observable outcome of a run: ordered output events, process exit
code, HTTP POSTs attempted (endpoint and body), and whether the run died
with an uncaught exception (Python traceback). -/
structure ProcResult where
  output : List OutputEvent
  exitCode : Nat
  posts : List (String × JsonValue)
  crashed : Bool
deriving DecidableEq, Repr

/-- `load_from_json_file`: returns the parsed value, or the diagnostic
events of the `sys.exit(1)` branches. -/
def load_from_json_file (fs : String → FileResult) (file_path : String) :
    Except (List OutputEvent) JsonValue :=
  match fs file_path with
  | FileResult.notFound => Except.error [OutputEvent.fileNotFound file_path]
  | FileResult.parseError e => Except.error [OutputEvent.jsonInvalid e]
  | FileResult.ok v => Except.ok v

/-- One string field of the command-line branch of `build_request_data`:
`if args.x:` is Python truthiness, so the key is added exactly when the flag
is present and non-empty. -/
def strField (key : String) (o : Option String) : JsonObj :=
  match o with
  | some s => if s = "" then JsonObj.nil else JsonObj.cons key (JsonValue.str s) JsonObj.nil
  | none => JsonObj.nil

/-- One numeric field of the command-line branch of `build_request_data`:
`if args.x is not None:` adds the key whenever the flag was given, even at 0. -/
def numField (key : String) (o : Option Rat) : JsonObj :=
  match o with
  | some q => JsonObj.cons key (JsonValue.num q) JsonObj.nil
  | none => JsonObj.nil

/-- The command-line branch of `build_request_data`: the ten conditional
insertions, in source order. -/
def cmdlineData (args : Args) : JsonObj :=
  JsonObj.append (strField "techDocName" args.tech_doc_name)
    (JsonObj.append (strField "techDocLink" args.tech_doc_link)
      (JsonObj.append (strField "submitter" args.submitter)
        (JsonObj.append (strField "businessLine" args.business_line)
          (JsonObj.append (numField "productScore" args.product_score)
            (JsonObj.append (numField "backendScore" args.backend_score)
              (JsonObj.append (numField "frontendScore" args.frontend_score)
                (JsonObj.append (numField "testScore" args.test_score)
                  (JsonObj.append (numField "globalScore" args.global_score)
                    (strField "globalLevel" args.global_level)))))))))

/-- Python truthiness of an optional string (`None` and `""` are falsy). -/
def optStrTruthy : Option String → Bool
  | none => false
  | some s => s ≠ ""

/-- `build_request_data`: file mode when `args.from_file` is truthy
(present and non-empty), otherwise the command-line branch. -/
def build_request_data (fs : String → FileResult) (args : Args) :
    Except (List OutputEvent) JsonValue :=
  match args.from_file with
  | some p =>
      if p = "" then Except.ok (JsonValue.obj (cmdlineData args))
      else load_from_json_file fs p
  | none => Except.ok (JsonValue.obj (cmdlineData args))

/-- The ten required fields of `validate_data`, in source order. -/
def required_fields : List String :=
  ["techDocName", "techDocLink", "submitter", "businessLine", "productScore",
   "backendScore", "frontendScore", "testScore", "globalScore", "globalLevel"]

/-- The `for field in required_fields` loop of `validate_data`: collects the
fields with `field not in data`; `none` models the `TypeError` Python raises
when `in` is applied to a number, boolean or `None`. -/
def missingFieldsLoop (fields : List String) (data : JsonValue) :
    Option (List String) :=
  match fields with
  | [] => some []
  | f :: rest =>
      match pyIn f data with
      | none => none
      | some true => missingFieldsLoop rest data
      | some false => (missingFieldsLoop rest data).map (fun ms => f :: ms)

/-- `validate_data`: `some (b, evs)` is the returned boolean together with
the diagnostic prints; `none` is an uncaught `TypeError`. -/
def validate_data (data : JsonValue) : Option (Bool × List OutputEvent) :=
  match missingFieldsLoop required_fields data with
  | none => none
  | some [] => some (true, [])
  | some ms =>
      some (false,
        OutputEvent.missingFieldsHeader ::
          (ms.map OutputEvent.missingField ++ [OutputEvent.provideFieldsHint]))

/-- Python `url.rstrip(\x27/\x27)` on the underlying character list: remove
every trailing slash. -/
def rstripSlashList (l : List Char) : List Char :=
  (l.reverse.dropWhile (fun c => c = '/')).reverse

/-- Python `url.rstrip(\x27/\x27)`. -/
def pyRstripSlash (s : String) : String :=
  String.mk (rstripSlashList s.data)

/-- The fixed path appended to the base URL in `main`. -/
def apiSuffix : String := "/fullstack/api/tech_plan/score/submit"

/-- The endpoint computed in `main`. -/
def computeApiUrl (url : String) : String :=
  pyRstripSlash url ++ apiSuffix

/-- `send_request`: issues the one POST and classifies the outcome exactly as
the `try`/`except` chain of the source does. -/
def send_request (net : NetBehavior) (api_url : String) (data : JsonValue) :
    ProcResult :=
  let pre := [OutputEvent.sendingRequest api_url, OutputEvent.requestData data]
  match net with
  | NetBehavior.response status _ (some j) =>
      ⟨pre ++ [OutputEvent.responseStatus status,
          OutputEvent.responseContent j] ++
          (if status = 200 then [OutputEvent.requestSuccess]
           else [OutputEvent.requestFailed status]),
        0, [(api_url, data)], false⟩
  | NetBehavior.response status raw none =>
      ⟨pre ++ [OutputEvent.responseStatus status,
          OutputEvent.invalidJsonResponse, OutputEvent.rawResponse raw],
        1, [(api_url, data)], false⟩
  | NetBehavior.connectionError =>
      ⟨pre ++ [OutputEvent.cannotConnect api_url,
          OutputEvent.checkHintHeader, OutputEvent.hintServerAddress,
          OutputEvent.hintServerRunning, OutputEvent.hintNetwork],
        1, [(api_url, data)], false⟩
  | NetBehavior.timeoutError =>
      ⟨pre ++ [OutputEvent.timeoutMsg], 1, [(api_url, data)], false⟩
  | NetBehavior.requestError m =>
      ⟨pre ++ [OutputEvent.requestExceptionMsg m], 1, [(api_url, data)], false⟩

/-- `main`: compute the endpoint, build the data, validate, submit. A failing
build or validation exits 1 before any POST; a `TypeError` inside
`validate_data` crashes the process (uncaught exception, exit 1). -/
def main (fs : String → FileResult) (net : NetBehavior) (args : Args) :
    ProcResult :=
  let api_url := computeApiUrl args.url
  match build_request_data fs args with
  | Except.error evs => ⟨evs, 1, [], false⟩
  | Except.ok data =>
      match validate_data data with
      | none => ⟨[], 1, [], true⟩
      | some (false, evs) => ⟨evs, 1, [], false⟩
      | some (true, _) => send_request net api_url data

/-! Concrete inputs used to instantiate the theorems below. -/

/-- A filesystem with no files. -/
def fsNone : String → FileResult := fun _ => FileResult.notFound

/-- A network that answers HTTP 200 with the JSON body `{}`. -/
def netOk : NetBehavior :=
  NetBehavior.response 200 "{}" (some (JsonValue.obj JsonObj.nil))

/-- A run with only `--url` given. -/
def argsAllNone : Args :=
  ⟨"http://example.com", none, none, none, none, none, none, none, none,
   none, none, none⟩

/-- The ten field flags of spec §8: `--tech-doc-name "X" ... --global-level
"Good"`, no `--from-file`. -/
def argsTenFlags : Args :=
  ⟨"http://host:80", some "X", some "L", some "S", some "B", some 85.5,
   some 90, some 88, some 92.5, some 89, some "Good", none⟩

/-- The mapping the spec expects `argsTenFlags` to build. -/
def mapTenFlags : JsonObj := JsonObj.ofList
  [("techDocName", JsonValue.str "X"), ("techDocLink", JsonValue.str "L"),
   ("submitter", JsonValue.str "S"), ("businessLine", JsonValue.str "B"),
   ("productScore", JsonValue.num 85.5), ("backendScore", JsonValue.num 90),
   ("frontendScore", JsonValue.num 88), ("testScore", JsonValue.num 92.5),
   ("globalScore", JsonValue.num 89), ("globalLevel", JsonValue.str "Good")]

/-- A parsed file object distinct from any command-line-built mapping. -/
def fileObjAlt : JsonValue :=
  JsonValue.obj (JsonObj.ofList [("techDocName", JsonValue.str "FromFile")])

/-- A filesystem whose every path parses to `fileObjAlt`. -/
def fsConstAlt : String → FileResult := fun _ => FileResult.ok fileObjAlt

/-- All ten field flags together with `--from-file ""` (the empty string). -/
def argsTenFlagsEmptyFile : Args :=
  ⟨"http://host:80", some "X", some "L", some "S", some "B", some 85.5,
   some 90, some 88, some 92.5, some 89, some "Good", some ""⟩

/-- A complete file payload: all ten canonical keys. -/
def fileObjTen : JsonValue := JsonValue.obj (JsonObj.ofList
  [("techDocName", JsonValue.str "A"), ("techDocLink", JsonValue.str "lnk"),
   ("submitter", JsonValue.str "Z"), ("businessLine", JsonValue.str "BL"),
   ("productScore", JsonValue.num 1), ("backendScore", JsonValue.num 2),
   ("frontendScore", JsonValue.num 3), ("testScore", JsonValue.num 4),
   ("globalScore", JsonValue.num 5), ("globalLevel", JsonValue.str "good")])

/-- A filesystem holding `data.json` parsing to `fileObjTen`. -/
def fsDataJson : String → FileResult := fun p =>
  if p = "data.json" then FileResult.ok fileObjTen else FileResult.notFound

/-- A run with `--from-file data.json` and no field flags. -/
def argsFromDataJson : Args :=
  ⟨"http://host:80", none, none, none, none, none, none, none, none, none,
   none, some "data.json"⟩

/-- A run with `--from-file bad.json` and no field flags. -/
def argsFromBadJson : Args :=
  ⟨"http://host:80", none, none, none, none, none, none, none, none, none,
   none, some "bad.json"⟩

/-- A filesystem where `bad.json` exists but is not valid JSON. -/
def fsBadJson : String → FileResult := fun p =>
  if p = "bad.json" then FileResult.parseError "Expecting value" else FileResult.notFound

/-- The decoded body of the mocked HTTP 500 rejection of spec §8. -/
def errBody : JsonValue :=
  JsonValue.obj (JsonObj.ofList [("error", JsonValue.str "bad")])

/-- Command-line flags exercising the truthiness boundary: empty strings for
`--tech-doc-name` and `--global-level`, 0 for every score flag. -/
def argsTruthyEdge : Args :=
  ⟨"http://host:80", some "", some "L", some "S", some "B", some 0, some 0,
   some 0, some 0, some 0, some "", none⟩

/-- A file whose top-level JSON value is the array of the ten required field
names (not an object). -/
def arrTenNames : JsonValue :=
  JsonValue.arr (JsonArr.ofList (required_fields.map JsonValue.str))

/-- A file whose top-level JSON value is a string containing every required
field name as a substring (not an object). -/
def strTenNames : JsonValue := JsonValue.str
  "techDocNametechDocLinksubmitterbusinessLineproductScorebackendScorefrontendScoretestScoreglobalScoreglobalLevel"

/-- A filesystem where `arr.json`, `str.json` and `num.json` hold a top-level
array, string and number respectively. -/
def fsNonObject : String → FileResult := fun p =>
  if p = "arr.json" then FileResult.ok arrTenNames
  else if p = "str.json" then FileResult.ok strTenNames
  else if p = "num.json" then FileResult.ok (JsonValue.num 42)
  else FileResult.notFound

/-- A run with `--from-file num.json`. -/
def argsFromNumJson : Args :=
  ⟨"http://host:80", none, none, none, none, none, none, none, none, none,
   none, some "num.json"⟩

/-- A run with `--from-file arr.json`. -/
def argsFromArrJson : Args :=
  ⟨"http://host:80", none, none, none, none, none, none, none, none, none,
   none, some "arr.json"⟩

/-! Helper lemmas. -/

theorem JsonObj.hasKey_append : (a b : JsonObj) → (f : String) →
    (a.append b).hasKey f = (a.hasKey f || b.hasKey f)
  | JsonObj.nil, b, f => by simp [JsonObj.append, JsonObj.hasKey]
  | JsonObj.cons k v rest, b, f => by
      simp only [JsonObj.append, JsonObj.hasKey,
        JsonObj.hasKey_append rest b f]
      split <;> simp

theorem JsonObj.lookup_append : (a b : JsonObj) → (f : String) →
    (a.append b).lookup f = (a.lookup f).or (b.lookup f)
  | JsonObj.nil, b, f => by simp [JsonObj.append, JsonObj.lookup]
  | JsonObj.cons k v rest, b, f => by
      simp only [JsonObj.append, JsonObj.lookup,
        JsonObj.lookup_append rest b f]
      split <;> simp

theorem strField_hasKey_ne (key f : String) (o : Option String) (h : f ≠ key) :
    (strField key o).hasKey f = false := by
  cases o with
  | none => rfl
  | some s =>
      simp only [strField]
      split
      · rfl
      · simp [JsonObj.hasKey, Ne.symm h]

theorem numField_hasKey_ne (key f : String) (o : Option Rat) (h : f ≠ key) :
    (numField key o).hasKey f = false := by
  cases o with
  | none => rfl
  | some q => simp [numField, JsonObj.hasKey, Ne.symm h]

theorem strField_hasKey_self (key : String) (o : Option String) :
    (strField key o).hasKey key = optStrTruthy o := by
  cases o with
  | none => rfl
  | some s =>
      simp only [strField, optStrTruthy]
      split
      · simp [JsonObj.hasKey, *]
      · simp [JsonObj.hasKey, *]

theorem numField_hasKey_self (key : String) (o : Option Rat) :
    (numField key o).hasKey key = o.isSome := by
  cases o with
  | none => rfl
  | some q => simp [numField, JsonObj.hasKey]

theorem strField_lookup_ne (key f : String) (o : Option String) (h : f ≠ key) :
    (strField key o).lookup f = none := by
  cases o with
  | none => rfl
  | some s =>
      simp only [strField]
      split
      · rfl
      · simp [JsonObj.lookup, Ne.symm h]

theorem numField_lookup_ne (key f : String) (o : Option Rat) (h : f ≠ key) :
    (numField key o).lookup f = none := by
  cases o with
  | none => rfl
  | some q => simp [numField, JsonObj.lookup, Ne.symm h]

theorem numField_lookup_self (key : String) (q : Rat) :
    (numField key (some q)).lookup key = some (JsonValue.num q) := by
  simp [numField, JsonObj.lookup]

theorem build_request_data_cmdline (fs : String → FileResult) (args : Args)
    (h : optStrTruthy args.from_file = false) :
    build_request_data fs args = Except.ok (JsonValue.obj (cmdlineData args)) := by
  cases hff : args.from_file with
  | none => simp [build_request_data, hff]
  | some p =>
      have hp : p = "" := by
        rw [hff] at h
        simpa [optStrTruthy] using h
      simp [build_request_data, hff, hp]

theorem build_request_data_filemode (fs : String → FileResult) (args : Args)
    (p : String) (hp : args.from_file = some p) (hne : p ≠ "") :
    build_request_data fs args = load_from_json_file fs p := by
  simp [build_request_data, hp, hne]

theorem missingFieldsLoop_obj (fields : List String) (o : JsonObj) :
    missingFieldsLoop fields (JsonValue.obj o) =
      some (fields.filter (fun f => !(o.hasKey f))) := by
  induction fields with
  | nil => rfl
  | cons f rest ih =>
      simp only [missingFieldsLoop, pyIn]
      cases h : o.hasKey f
      · simp [h, ih, List.filter_cons]
      · simp [h, ih, List.filter_cons]

theorem validate_data_obj (o : JsonObj) :
    validate_data (JsonValue.obj o) =
      if required_fields.filter (fun f => !(o.hasKey f)) = [] then
        some (true, [])
      else
        some (false, OutputEvent.missingFieldsHeader ::
          ((required_fields.filter (fun f => !(o.hasKey f))).map
              OutputEvent.missingField ++ [OutputEvent.provideFieldsHint])) := by
  simp only [validate_data, missingFieldsLoop_obj]
  cases hms : required_fields.filter (fun f => !(o.hasKey f)) with
  | nil => simp
  | cons a t => simp

theorem main_eq_build_error (fs : String → FileResult) (net : NetBehavior)
    (args : Args) (evs : List OutputEvent)
    (h : build_request_data fs args = Except.error evs) :
    main fs net args = ⟨evs, 1, [], false⟩ := by
  simp [main, h]

theorem main_eq_validate_false (fs : String → FileResult) (net : NetBehavior)
    (args : Args) (data : JsonValue) (evs : List OutputEvent)
    (hb : build_request_data fs args = Except.ok data)
    (hv : validate_data data = some (false, evs)) :
    main fs net args = ⟨evs, 1, [], false⟩ := by
  simp [main, hb, hv]

theorem main_eq_validate_true (fs : String → FileResult) (net : NetBehavior)
    (args : Args) (data : JsonValue) (evs : List OutputEvent)
    (hb : build_request_data fs args = Except.ok data)
    (hv : validate_data data = some (true, evs)) :
    main fs net args = send_request net (computeApiUrl args.url) data := by
  simp [main, hb, hv]

theorem main_eq_validate_crash (fs : String → FileResult) (net : NetBehavior)
    (args : Args) (data : JsonValue)
    (hb : build_request_data fs args = Except.ok data)
    (hv : validate_data data = none) :
    main fs net args = ⟨[], 1, [], true⟩ := by
  simp [main, hb, hv]

theorem rstripSlashList_eq_rdropWhile (l : List Char) :
    rstripSlashList l = List.rdropWhile (fun c => c = '/') l := rfl

theorem rstripSlashList_decomp (l : List Char) :
    ∃ k, l = rstripSlashList l ++ List.replicate k '/' := by
  refine ⟨(List.rtakeWhile (fun c => c = '/') l).length, ?_⟩
  have h1 : List.rdropWhile (fun c => c = '/') l ++
      List.rtakeWhile (fun c => c = '/') l = l := by
    rw [List.rdropWhile, List.rtakeWhile, ← List.reverse_append,
      List.takeWhile_append_dropWhile, List.reverse_reverse]
  have h2 : List.rtakeWhile (fun c => c = '/') l =
      List.replicate (List.rtakeWhile (fun c => c = '/') l).length '/' := by
    apply List.eq_replicate_length.mpr
    intro b hb
    simpa using List.mem_rtakeWhile_imp hb
  rw [rstripSlashList_eq_rdropWhile]
  conv_lhs => rw [← h1]
  rw [← h2]

theorem rstripSlashList_last (l : List Char) (h : rstripSlashList l ≠ []) :
    (rstripSlashList l).getLast h ≠ '/' := by
  have := List.rdropWhile_last_not (fun c => c = '/') l h
  simpa using this

theorem required_fields_nodup : required_fields.Nodup := by decide

theorem count_map_missingField (ms : List String) (f : String) :
    (ms.map OutputEvent.missingField).count (OutputEvent.missingField f) =
      ms.count f := by
  induction ms with
  | nil => rfl
  | cons a t ih => simp [List.count_cons, ih, OutputEvent.missingField.injEq]

theorem count_missing_events (ms : List String) (f : String) :
    (OutputEvent.missingFieldsHeader ::
      (ms.map OutputEvent.missingField ++ [OutputEvent.provideFieldsHint])).count
        (OutputEvent.missingField f) = ms.count f := by
  rw [List.count_cons, List.count_append, count_map_missingField]
  simp

/-- C1: for every input mapping, validation fails exactly when one of the ten
required keys is absent, and on failure the run exits non-zero, issues no
HTTP request, and the diagnostic output names each missing field exactly
once (and no non-missing field). -/
theorem validation_contract (fs : String → FileResult) (net : NetBehavior)
    (args : Args) (o : JsonObj)
    (hbuild : build_request_data fs args = Except.ok (JsonValue.obj o)) :
    ((validate_data (JsonValue.obj o)).map Prod.fst = some false ↔
      ∃ f ∈ required_fields, o.hasKey f = false) ∧
    ((validate_data (JsonValue.obj o)).map Prod.fst = some false →
      (main fs net args).exitCode ≠ 0 ∧
      (main fs net args).posts = [] ∧
      ∀ f, (main fs net args).output.count (OutputEvent.missingField f) =
        if f ∈ required_fields ∧ o.hasKey f = false then 1 else 0) := by
  have hval := validate_data_obj o
  constructor
  · by_cases hms : required_fields.filter (fun f => !(o.hasKey f)) = []
    · rw [hval, if_pos hms]
      constructor
      · intro h
        simp at h
      · rintro ⟨f, hf, hk⟩
        have := List.filter_eq_nil_iff.mp hms f hf
        simp [hk] at this
    · rw [hval, if_neg hms]
      constructor
      · intro _
        obtain ⟨f, hf⟩ := List.exists_mem_of_ne_nil _ hms
        have hmem := List.mem_filter.mp hf
        exact ⟨f, hmem.1, by simpa using hmem.2⟩
      · intro _
        simp
  · intro hfalse
    have hms : required_fields.filter (fun f => !(o.hasKey f)) ≠ [] := by
      intro hnil
      rw [hval, if_pos hnil] at hfalse
      simp at hfalse
    have hveq : validate_data (JsonValue.obj o) =
        some (false, OutputEvent.missingFieldsHeader ::
          ((required_fields.filter (fun f => !(o.hasKey f))).map
              OutputEvent.missingField ++ [OutputEvent.provideFieldsHint])) := by
      rw [hval, if_neg hms]
    have hmain := main_eq_validate_false fs net args _ _ hbuild hveq
    rw [hmain]
    refine ⟨?_, ?_, ?_⟩
    · simp
    · rfl
    · intro f
      show (OutputEvent.missingFieldsHeader ::
          ((required_fields.filter (fun f => !(o.hasKey f))).map
              OutputEvent.missingField ++ [OutputEvent.provideFieldsHint])).count
            (OutputEvent.missingField f) = _
      rw [count_missing_events]
      have hnodup : (required_fields.filter (fun f => !(o.hasKey f))).Nodup :=
        required_fields_nodup.filter _
      by_cases hmem : f ∈ required_fields.filter (fun f => !(o.hasKey f))
      · have h1 := List.count_eq_one_of_mem hnodup hmem
        have hmem2 := List.mem_filter.mp hmem
        rw [h1]
        rw [if_pos ⟨hmem2.1, by simpa using hmem2.2⟩]
      · have h0 := List.count_eq_zero_of_not_mem hmem
        rw [h0]
        rw [if_neg]
        rintro ⟨h1, h2⟩
        exact hmem (List.mem_filter.mpr ⟨h1, by simp [h2]⟩)

/-- C1 witness: a run with no field flags builds the empty mapping; the
contract holds for it and its hypothesis is discharged at that input. -/
theorem validation_contract_witness :
    ((validate_data (JsonValue.obj (cmdlineData argsAllNone))).map Prod.fst =
        some false ↔
      ∃ f ∈ required_fields, (cmdlineData argsAllNone).hasKey f = false) ∧
    ((validate_data (JsonValue.obj (cmdlineData argsAllNone))).map Prod.fst =
        some false →
      (main fsNone netOk argsAllNone).exitCode ≠ 0 ∧
      (main fsNone netOk argsAllNone).posts = [] ∧
      ∀ f, (main fsNone netOk argsAllNone).output.count
          (OutputEvent.missingField f) =
        if f ∈ required_fields ∧ (cmdlineData argsAllNone).hasKey f = false
        then 1 else 0) :=
  validation_contract fsNone netOk argsAllNone (cmdlineData argsAllNone) rfl

/-- C2: the ten example flags build exactly the renamed ten-key mapping, and
validation of that mapping succeeds. -/
theorem ten_flags_build_exact :
    build_request_data fsNone argsTenFlags =
      Except.ok (JsonValue.obj mapTenFlags) ∧
    (validate_data (JsonValue.obj mapTenFlags)).map Prod.fst = some true :=
  ⟨rfl, by decide⟩

/-- C3: the endpoint is the base URL with every trailing slash removed
followed by the fixed suffix: the stripped prefix never ends in a slash and
differs from the base URL only by trailing slashes; the two example URLs
with and without a trailing slash give the identical endpoint. -/
theorem endpoint_trailing_slash :
    (∀ url : String, ∃ k,
      computeApiUrl url =
        pyRstripSlash url ++ "/fullstack/api/tech_plan/score/submit" ∧
      url.data = (pyRstripSlash url).data ++ List.replicate k '/' ∧
      ∀ h : (pyRstripSlash url).data ≠ [],
        (pyRstripSlash url).data.getLast h ≠ '/') ∧
    computeApiUrl "http://host:80" =
      "http://host:80/fullstack/api/tech_plan/score/submit" ∧
    computeApiUrl "http://host:80/" =
      "http://host:80/fullstack/api/tech_plan/score/submit" := by
  refine ⟨fun url => ?_, by decide, by decide⟩
  obtain ⟨k, hk⟩ := rstripSlashList_decomp url.data
  exact ⟨k, rfl, hk, fun h => rstripSlashList_last url.data h⟩

theorem send_request_posts (net : NetBehavior) (u : String) (d : JsonValue) :
    (send_request net u d).posts = [(u, d)] := by
  cases net with
  | response status raw parsed => cases parsed <;> rfl
  | connectionError => rfl
  | timeoutError => rfl
  | requestError m => rfl

/-- C4 counterexample: `--from-file ""` (the empty string) is a supplied
from-file path, the filesystem parses every path (including `""`) to
`fileObjAlt`, yet the built mapping is the flag-derived mapping, not the
file's object: the claim fails for the empty path because `if
args.from_file:` tests truthiness, not presence. -/
theorem filemode_precedence_cex :
    argsTenFlagsEmptyFile.from_file = some "" ∧
    fsConstAlt "" = FileResult.ok fileObjAlt ∧
    build_request_data fsConstAlt argsTenFlagsEmptyFile =
      Except.ok (JsonValue.obj mapTenFlags) ∧
    JsonValue.obj mapTenFlags ≠ fileObjAlt :=
  ⟨rfl, rfl, rfl, by decide⟩

/-- C4 (amended): whenever a NON-EMPTY from-file path is supplied, file mode
takes precedence over all field flags and the built mapping — hence the
submitted body, when validation succeeds — is the file's parsed top-level
JSON value verbatim, with no renaming and no filtering. -/
theorem filemode_precedence (fs : String → FileResult) (args : Args)
    (p : String) (v : JsonValue) (hp : args.from_file = some p)
    (hne : p ≠ "") (hv : fs p = FileResult.ok v) :
    build_request_data fs args = Except.ok v ∧
    ∀ net evs, validate_data v = some (true, evs) →
      (main fs net args).posts = [(computeApiUrl args.url, v)] := by
  have hb : build_request_data fs args = Except.ok v := by
    rw [build_request_data_filemode fs args p hp hne]
    simp [load_from_json_file, hv]
  refine ⟨hb, ?_⟩
  intro net evs hval
  rw [main_eq_validate_true fs net args v evs hb hval]
  exact send_request_posts net _ v

/-- C4 witness: the amended theorem applied to `--from-file data.json` with a
complete ten-field file. -/
theorem filemode_precedence_witness :
    build_request_data fsDataJson argsFromDataJson = Except.ok fileObjTen ∧
    ∀ net evs, validate_data fileObjTen = some (true, evs) →
      (main fsDataJson net argsFromDataJson).posts =
        [(computeApiUrl argsFromDataJson.url, fileObjTen)] :=
  filemode_precedence fsDataJson argsFromDataJson "data.json" fileObjTen rfl
    (by decide) rfl

/-- C5: when the response has a status code other than 200 and a valid JSON
body, the run reports the status code and the decoded body together with the
failure message, does not crash, and exits 0. -/
theorem non200_soft_failure (fs : String → FileResult) (args : Args)
    (data : JsonValue) (status : Nat) (raw : String) (j : JsonValue)
    (evs : List OutputEvent)
    (hb : build_request_data fs args = Except.ok data)
    (hv : validate_data data = some (true, evs))
    (hstatus : status ≠ 200) :
    (main fs (NetBehavior.response status raw (some j)) args).exitCode = 0 ∧
    (main fs (NetBehavior.response status raw (some j)) args).crashed = false ∧
    OutputEvent.responseStatus status ∈
      (main fs (NetBehavior.response status raw (some j)) args).output ∧
    OutputEvent.responseContent j ∈
      (main fs (NetBehavior.response status raw (some j)) args).output ∧
    OutputEvent.requestFailed status ∈
      (main fs (NetBehavior.response status raw (some j)) args).output := by
  rw [main_eq_validate_true fs (NetBehavior.response status raw (some j))
    args data evs hb hv]
  simp [send_request, hstatus]

/-- C5 witness: the mocked HTTP 500 rejection with body the JSON object
holding key error and value bad, after a valid ten-flag build. -/
theorem non200_soft_failure_witness :
    (main fsNone (NetBehavior.response 500 "err" (some errBody))
        argsTenFlags).exitCode = 0 ∧
    (main fsNone (NetBehavior.response 500 "err" (some errBody))
        argsTenFlags).crashed = false ∧
    OutputEvent.responseStatus 500 ∈
      (main fsNone (NetBehavior.response 500 "err" (some errBody))
        argsTenFlags).output ∧
    OutputEvent.responseContent errBody ∈
      (main fsNone (NetBehavior.response 500 "err" (some errBody))
        argsTenFlags).output ∧
    OutputEvent.requestFailed 500 ∈
      (main fsNone (NetBehavior.response 500 "err" (some errBody))
        argsTenFlags).output :=
  non200_soft_failure fsNone argsTenFlags (JsonValue.obj mapTenFlags) 500
    "err" errBody [] rfl (by decide) (by decide)

/-- C6: when a response arrives whose body is not valid JSON, the run prints
the invalid-JSON diagnostic together with the raw response text and exits
non-zero. -/
theorem non_json_response_fatal (fs : String → FileResult) (args : Args)
    (data : JsonValue) (status : Nat) (raw : String)
    (evs : List OutputEvent)
    (hb : build_request_data fs args = Except.ok data)
    (hv : validate_data data = some (true, evs)) :
    (main fs (NetBehavior.response status raw none) args).exitCode = 1 ∧
    OutputEvent.invalidJsonResponse ∈
      (main fs (NetBehavior.response status raw none) args).output ∧
    OutputEvent.rawResponse raw ∈
      (main fs (NetBehavior.response status raw none) args).output := by
  rw [main_eq_validate_true fs (NetBehavior.response status raw none) args
    data evs hb hv]
  simp [send_request]

/-- C6 witness: an HTML body after a valid ten-flag build. -/
theorem non_json_response_fatal_witness :
    (main fsNone (NetBehavior.response 200 "<html>" none)
        argsTenFlags).exitCode = 1 ∧
    OutputEvent.invalidJsonResponse ∈
      (main fsNone (NetBehavior.response 200 "<html>" none)
        argsTenFlags).output ∧
    OutputEvent.rawResponse "<html>" ∈
      (main fsNone (NetBehavior.response 200 "<html>" none)
        argsTenFlags).output :=
  non_json_response_fatal fsNone argsTenFlags (JsonValue.obj mapTenFlags) 200
    "<html>" [] rfl (by decide)

/-- C7: every transport error is fatal (exit 1) with a cause-specific
diagnostic: connection failure prints the probable-cause checklist, a
timeout prints the timeout diagnostic, and any other request exception
prints the exception message. -/
theorem transport_errors_fatal (fs : String → FileResult) (args : Args)
    (data : JsonValue) (evs : List OutputEvent)
    (hb : build_request_data fs args = Except.ok data)
    (hv : validate_data data = some (true, evs)) :
    ((main fs NetBehavior.connectionError args).exitCode = 1 ∧
      OutputEvent.cannotConnect (computeApiUrl args.url) ∈
        (main fs NetBehavior.connectionError args).output ∧
      OutputEvent.hintServerAddress ∈
        (main fs NetBehavior.connectionError args).output ∧
      OutputEvent.hintServerRunning ∈
        (main fs NetBehavior.connectionError args).output ∧
      OutputEvent.hintNetwork ∈
        (main fs NetBehavior.connectionError args).output) ∧
    ((main fs NetBehavior.timeoutError args).exitCode = 1 ∧
      OutputEvent.timeoutMsg ∈
        (main fs NetBehavior.timeoutError args).output) ∧
    (∀ m, (main fs (NetBehavior.requestError m) args).exitCode = 1 ∧
      OutputEvent.requestExceptionMsg m ∈
        (main fs (NetBehavior.requestError m) args).output) := by
  refine ⟨?_, ?_, fun m => ?_⟩
  · rw [main_eq_validate_true fs NetBehavior.connectionError args data evs
      hb hv]
    simp [send_request]
  · rw [main_eq_validate_true fs NetBehavior.timeoutError args data evs
      hb hv]
    simp [send_request]
  · rw [main_eq_validate_true fs (NetBehavior.requestError m) args data evs
      hb hv]
    simp [send_request]

/-- C7 witness: the three transport errors after a valid ten-flag build. -/
theorem transport_errors_fatal_witness :
    ((main fsNone NetBehavior.connectionError argsTenFlags).exitCode = 1 ∧
      OutputEvent.cannotConnect (computeApiUrl argsTenFlags.url) ∈
        (main fsNone NetBehavior.connectionError argsTenFlags).output ∧
      OutputEvent.hintServerAddress ∈
        (main fsNone NetBehavior.connectionError argsTenFlags).output ∧
      OutputEvent.hintServerRunning ∈
        (main fsNone NetBehavior.connectionError argsTenFlags).output ∧
      OutputEvent.hintNetwork ∈
        (main fsNone NetBehavior.connectionError argsTenFlags).output) ∧
    ((main fsNone NetBehavior.timeoutError argsTenFlags).exitCode = 1 ∧
      OutputEvent.timeoutMsg ∈
        (main fsNone NetBehavior.timeoutError argsTenFlags).output) ∧
    (∀ m, (main fsNone (NetBehavior.requestError m) argsTenFlags).exitCode
        = 1 ∧
      OutputEvent.requestExceptionMsg m ∈
        (main fsNone (NetBehavior.requestError m) argsTenFlags).output) :=
  transport_errors_fatal fsNone argsTenFlags (JsonValue.obj mapTenFlags) []
    rfl (by decide)

/-- C8 counterexample: `--from-file ""` points at a path that does not exist,
yet the run prints no file-not-found diagnostic, performs the POST, and
exits 0 (the empty path is falsy, so file mode is silently skipped). -/
theorem fromfile_missing_cex :
    argsTenFlagsEmptyFile.from_file = some "" ∧
    fsNone "" = FileResult.notFound ∧
    (main fsNone netOk argsTenFlagsEmptyFile).exitCode = 0 ∧
    (main fsNone netOk argsTenFlagsEmptyFile).posts ≠ [] ∧
    OutputEvent.fileNotFound "" ∉
      (main fsNone netOk argsTenFlagsEmptyFile).output :=
  ⟨rfl, rfl, rfl, by decide, by decide⟩

/-- C8 (amended): for a NON-EMPTY from-file path, a missing file produces
exactly the file-not-found diagnostic, exit code 1 and no network call, and
an unparseable file produces exactly the JSON-parse diagnostic, exit code 1
and no network call. -/
theorem fromfile_errors_fatal (fs : String → FileResult) (net : NetBehavior)
    (args : Args) (p : String) (hp : args.from_file = some p)
    (hne : p ≠ "") :
    (fs p = FileResult.notFound →
      main fs net args = ⟨[OutputEvent.fileNotFound p], 1, [], false⟩) ∧
    ∀ m, fs p = FileResult.parseError m →
      main fs net args = ⟨[OutputEvent.jsonInvalid m], 1, [], false⟩ := by
  constructor
  · intro hnf
    apply main_eq_build_error
    rw [build_request_data_filemode fs args p hp hne]
    simp [load_from_json_file, hnf]
  · intro m hpe
    apply main_eq_build_error
    rw [build_request_data_filemode fs args p hp hne]
    simp [load_from_json_file, hpe]

/-- C8 witness: a missing `data.json` and an unparseable `bad.json`. -/
theorem fromfile_errors_fatal_witness :
    main fsNone netOk argsFromDataJson =
      ⟨[OutputEvent.fileNotFound "data.json"], 1, [], false⟩ ∧
    main fsBadJson netOk argsFromBadJson =
      ⟨[OutputEvent.jsonInvalid "Expecting value"], 1, [], false⟩ :=
  ⟨(fromfile_errors_fatal fsNone netOk argsFromDataJson "data.json" rfl
      (by decide)).1 rfl,
   (fromfile_errors_fatal fsBadJson netOk argsFromBadJson "bad.json" rfl
      (by decide)).2 "Expecting value" rfl⟩

/-- C10: file mode returns the parsed top-level value with no check that it
is an object; a top-level array of the ten field names and a top-level
string containing them pass validation spuriously, and a top-level number
makes validation raise an uncaught TypeError that crashes the run, instead
of any of these being rejected as an invalid input file. -/
theorem non_object_file_unchecked (fs : String → FileResult) (args : Args)
    (p : String) (v : JsonValue) (hp : args.from_file = some p)
    (hne : p ≠ "") (hv : fs p = FileResult.ok v) :
    build_request_data fs args = Except.ok v ∧
    (validate_data arrTenNames).map Prod.fst = some true ∧
    (validate_data strTenNames).map Prod.fst = some true ∧
    validate_data (JsonValue.num 42) = none ∧
    (main fsNonObject netOk argsFromNumJson).crashed = true ∧
    (main fsNonObject netOk argsFromNumJson).exitCode = 1 ∧
    (main fsNonObject netOk argsFromArrJson).posts =
      [(computeApiUrl argsFromArrJson.url, arrTenNames)] := by
  refine ⟨?_, by decide, by decide, by decide, by decide, by decide,
    by decide⟩
  rw [build_request_data_filemode fs args p hp hne]
  simp [load_from_json_file, hv]

/-- C10 witness: the theorem applied to `--from-file num.json`, whose
top-level value is the number 42. -/
theorem non_object_file_unchecked_witness :
    build_request_data fsNonObject argsFromNumJson =
      Except.ok (JsonValue.num 42) ∧
    (validate_data arrTenNames).map Prod.fst = some true ∧
    (validate_data strTenNames).map Prod.fst = some true ∧
    validate_data (JsonValue.num 42) = none ∧
    (main fsNonObject netOk argsFromNumJson).crashed = true ∧
    (main fsNonObject netOk argsFromNumJson).exitCode = 1 ∧
    (main fsNonObject netOk argsFromArrJson).posts =
      [(computeApiUrl argsFromArrJson.url, arrTenNames)] :=
  non_object_file_unchecked fsNonObject argsFromNumJson "num.json"
    (JsonValue.num 42) rfl (by decide) rfl

/-- C9: in command-line mode a string flag given as the empty string is
treated as absent — its key is omitted and validation reports it missing —
because string presence is decided by truthiness, while a numeric score
flag given as 0 is included, because numeric presence is decided by an
is-not-None test. -/
theorem truthiness_of_flags (fs : String → FileResult) (args : Args)
    (hmode : optStrTruthy args.from_file = false) :
    build_request_data fs args =
      Except.ok (JsonValue.obj (cmdlineData args)) ∧
    (args.tech_doc_name = some "" →
      (cmdlineData args).hasKey "techDocName" = false) ∧
    (args.global_level = some "" →
      (cmdlineData args).hasKey "globalLevel" = false) ∧
    (args.tech_doc_name = some "" →
      (validate_data (JsonValue.obj (cmdlineData args))).map Prod.fst =
          some false ∧
      ∃ evs, validate_data (JsonValue.obj (cmdlineData args)) =
          some (false, evs) ∧
        OutputEvent.missingField "techDocName" ∈ evs) ∧
    (∀ q : Rat, args.product_score = some q →
      (cmdlineData args).lookup "productScore" = some (JsonValue.num q)) ∧
    (∀ q : Rat, args.backend_score = some q →
      (cmdlineData args).lookup "backendScore" = some (JsonValue.num q)) ∧
    (∀ q : Rat, args.frontend_score = some q →
      (cmdlineData args).lookup "frontendScore" = some (JsonValue.num q)) ∧
    (∀ q : Rat, args.test_score = some q →
      (cmdlineData args).lookup "testScore" = some (JsonValue.num q)) ∧
    (∀ q : Rat, args.global_score = some q →
      (cmdlineData args).lookup "globalScore" = some (JsonValue.num q)) := by
  have hkey : args.tech_doc_name = some "" →
      (cmdlineData args).hasKey "techDocName" = false := by
    intro h
    simp only [cmdlineData, JsonObj.hasKey_append, h]
    simp [strField_hasKey_self, strField_hasKey_ne, numField_hasKey_ne,
      optStrTruthy]
  refine ⟨build_request_data_cmdline fs args hmode, hkey, ?_, ?_, ?_, ?_,
    ?_, ?_, ?_⟩
  · intro h
    simp only [cmdlineData, JsonObj.hasKey_append, h]
    simp [strField_hasKey_self, strField_hasKey_ne, numField_hasKey_ne,
      optStrTruthy]
  · intro h
    have hk := hkey h
    have hmem : "techDocName" ∈ required_fields.filter
        (fun f => !((cmdlineData args).hasKey f)) :=
      List.mem_filter.mpr ⟨by decide, by simp [hk]⟩
    have hms : required_fields.filter
        (fun f => !((cmdlineData args).hasKey f)) ≠ [] := by
      intro hnil
      rw [hnil] at hmem
      exact absurd hmem (List.not_mem_nil _)
    have hveq := validate_data_obj (cmdlineData args)
    rw [if_neg hms] at hveq
    refine ⟨by rw [hveq]; rfl, _, hveq, ?_⟩
    exact List.mem_cons_of_mem _
      (List.mem_append_left _ (List.mem_map_of_mem _ hmem))
  · intro q h
    simp only [cmdlineData, JsonObj.lookup_append, h]
    simp [strField_lookup_ne, numField_lookup_self]
  · intro q h
    simp only [cmdlineData, JsonObj.lookup_append, h]
    simp [strField_lookup_ne, numField_lookup_ne, numField_lookup_self]
  · intro q h
    simp only [cmdlineData, JsonObj.lookup_append, h]
    simp [strField_lookup_ne, numField_lookup_ne, numField_lookup_self]
  · intro q h
    simp only [cmdlineData, JsonObj.lookup_append, h]
    simp [strField_lookup_ne, numField_lookup_ne, numField_lookup_self]
  · intro q h
    simp only [cmdlineData, JsonObj.lookup_append, h]
    simp [strField_lookup_ne, numField_lookup_ne, numField_lookup_self]

/-- C9 witness: empty-string `--tech-doc-name` and `--global-level` with
every score flag 0. -/
theorem truthiness_of_flags_witness :
    (cmdlineData argsTruthyEdge).hasKey "techDocName" = false ∧
    (cmdlineData argsTruthyEdge).hasKey "globalLevel" = false ∧
    (validate_data (JsonValue.obj (cmdlineData argsTruthyEdge))).map
        Prod.fst = some false ∧
    (cmdlineData argsTruthyEdge).lookup "productScore" =
      some (JsonValue.num 0) ∧
    (cmdlineData argsTruthyEdge).lookup "globalScore" =
      some (JsonValue.num 0) := by
  obtain ⟨h1, h2, h3, h4, h5, h6, h7, h8, h9⟩ :=
    truthiness_of_flags fsNone argsTruthyEdge rfl
  exact ⟨h2 rfl, h3 rfl, (h4 rfl).1, h5 0 rfl, h9 0 rfl⟩

end SubmitTechScore
